import Mathlib

/-!
Verification of the daily market-briefing scraper (src/main.py).

The externally-effectful surfaces of the pipeline (browser navigation and
key presses, the GNews search, the trafilatura extraction, the remote
completion HTTP call) are modelled as explicit oracle values passed into
each function, and every function of the source is translated into a total
Lean function over those oracles.  Numeric OHLC values are abstracted as
integers: no claim concerns float parsing or decimal formatting.
-/

/-- One candle's OHLC values as read from the chart header.  Numeric values
are abstracted as integers; the float parsing and fixed-decimal formatting of
the source are outside every claim considered here. -/
structure Ohlc where
  open_ : Int
  high : Int
  low : Int
  close : Int
deriving DecidableEq

/-- The day range computed on success (src/main.py line 157): high minus low. -/
def day_range (d : Ohlc) : Int := d.high - d.low

/-- The keyboard-navigable chart surface: the number of candles currently
loaded (cursor positions 0 to numCandles - 1, the right edge being the
newest, still-forming candle) and the OHLC read oracle get_ohlc_values,
which returns none when the widget yields no readable text at the hovered
position. -/
structure ChartModel where
  numCandles : Nat
  read_ohlc : Nat → Option Ohlc

/-- Pressing Home on the chart moves the cursor to the oldest candle. -/
def pressHome (_pos : Nat) : Nat := 0

/-- Pressing End moves the cursor to the newest (right-edge) candle. -/
def pressEnd (chart : ChartModel) (_pos : Nat) : Nat := chart.numCandles - 1

/-- Pressing ArrowLeft steps the cursor one candle back. -/
def pressArrowLeft (pos : Nat) : Nat := pos - 1

/-- Outcome of fetch_tradingview_yesterday_data: the Success dict's OHLC
payload, or the Failed dict's error string. -/
inductive PriceResult where
  | success (data : Ohlc)
  | failed (error : String)
deriving DecidableEq

/-- Navigation-and-read core of fetch_tradingview_yesterday_data
(src/main.py lines 128-150): press Home, then End twice, and read the OHLC
values at the resulting cursor position; if that read fails, press ArrowLeft
once and retry the read; if that also fails, the raised exception is caught
(lines 169-177) and becomes a Failed result carrying the exception's
message.  Popup clearing, settle waits, logging, error screenshots and the
decimal formatting of the returned numbers are effectful details with no
bearing on the claims and are not modelled. -/
def fetch_tradingview_yesterday_data (chart : ChartModel) : PriceResult :=
  let pos1 := pressHome 0
  let pos2 := pressEnd chart pos1
  let pos3 := pressEnd chart pos2
  match chart.read_ohlc pos3 with
  | some final_ohlc => PriceResult.success final_ohlc
  | none =>
    let pos4 := pressArrowLeft pos3
    match chart.read_ohlc pos4 with
    | some final_ohlc => PriceResult.success final_ohlc
    | none => PriceResult.failed "Failed to retrieve final OHLC values after navigation."

/-- Bool test: the second list is a prefix of the first list of characters. -/
def startsWithChars : List Char → List Char → Bool
  | _, [] => true
  | [], _ :: _ => false
  | c :: cs, p :: ps => c == p && startsWithChars cs ps

/-- Bool test: the second list occurs contiguously inside the first. -/
def containsChars : List Char → List Char → Bool
  | [], pat => pat.isEmpty
  | c :: cs, pat => startsWithChars (c :: cs) pat || containsChars cs pat

/-- Python's substring containment test, needle in hay, as used by
src/main.py line 58. -/
def py_in (needle hay : String) : Bool := containsChars hay.data needle.data

/-- What the navigation inside resolve_google_redirect observed: the final
page URL once the redirect settled, or a raised navigation error. -/
inductive NavOutcome where
  | landed (final_url : String)
  | navError (msg : String)

/-- resolve_google_redirect (src/main.py lines 49-65): any navigation
exception is caught and None is returned; otherwise the final URL is
returned, unless the string "google.com" occurs anywhere in it, in which
case resolution is reported as failed (None). -/
def resolve_google_redirect (nav : NavOutcome) : Option String :=
  match nav with
  | NavOutcome.navError _ => none
  | NavOutcome.landed final_url =>
    if py_in "google.com" final_url then none else some final_url

/-- Bool test: the second list is a suffix of the first list of characters. -/
def endsWithChars (l pat : List Char) : Bool :=
  startsWithChars l.reverse pat.reverse

/-- Modelled from the spec (section 4.3, domain-based exclusion): the host
component of a URL, the text between "://" and the next "/".  The source has
no such function; this definition follows the spec's words so that the
spec's domain test can be compared with the code's substring test. -/
def hostChars : List Char → List Char
  | [] => []
  | ':' :: '/' :: '/' :: rest => rest.takeWhile (fun c => !(c == '/'))
  | _ :: rest => hostChars rest

/-- Modelled from the spec (section 4.3): whether a URL's host is the news
aggregator's own domain, google.com or any of its subdomains such as
news.google.com. -/
def onAggregatorDomain (url : String) : Bool :=
  let h := hostChars url.data
  h == "google.com".data || endsWithChars h ".google.com".data

/-- Python string slicing s[:n]: the first n characters. -/
def pySlice (s : String) (n : Nat) : String := String.mk (s.data.take n)

/-- A string of n repeated characters, used as a concrete article body. -/
def strOfLen (n : Nat) : String := String.mk (List.replicate n 'a')

/-- The Extraction Gate inside fetch_and_scrape_news (src/main.py lines
206-209): trafilatura's result (none when nothing could be extracted; the
falsy empty string is subsumed by the length test) is rejected when shorter
than 250 characters, and an accepted body is truncated to its first 4000
characters before being stored. -/
def extraction_gate (body_text : Option String) : Option String :=
  match body_text with
  | none => none
  | some t => if t.length < 250 then none else some (pySlice t 4000)

/-- One GNews search result: title, Google indirection URL, publisher title. -/
structure ArticleInfo where
  title : String
  url : String
  publisherTitle : String
deriving DecidableEq

/-- One successfully scraped article as appended by fetch_and_scrape_news
(src/main.py line 209): title, publisher, resolved URL, truncated body. -/
structure AcceptedArticle where
  title : String
  source : String
  url : String
  body : String
deriving DecidableEq

/-- The external surfaces fetch_and_scrape_news drives, as oracles:
get_news is the GNews result list per query, resolve the outcome of
resolve_google_redirect per indirection URL (none on failure), fetchPage
the outcome of navigating to a resolved URL and taking its HTML content
(error when the navigation raised), and extractMainText the trafilatura
extraction on that HTML. -/
structure NewsEnv where
  get_news : String → List ArticleInfo
  resolve : String → Option String
  fetchPage : String → Except String String
  extractMainText : String → Option String

/-- The tier loop of fetch_and_scrape_news (src/main.py lines 186-189): the
first query whose search returns any results wins and the loop breaks;
later tiers are not consulted, and no results at all leaves the candidate
list empty. -/
def firstTierResults (env : NewsEnv) : List String → List ArticleInfo
  | [] => []
  | query :: rest =>
    if (env.get_news query).isEmpty then firstTierResults env rest
    else env.get_news query

/-- Appends a key when it is not already present: the key-ordering effect of
inserting into a Python dict, where the first insertion fixes the position. -/
def insertKey (ks : List String) (u : String) : List String :=
  if u ∈ ks then ks else ks ++ [u]

/-- The url keys of the dict comprehension on src/main.py line 190, in
first-occurrence order. -/
def urlKeys (l : List ArticleInfo) : List String :=
  l.foldl (fun ks a => insertKey ks a.url) []

/-- The value stored under a url key by the dict comprehension on
src/main.py line 190: the last article carrying that url, since later dict
insertions overwrite earlier values. -/
def lastWithUrl : List ArticleInfo → String → Option ArticleInfo
  | [], _ => none
  | a :: rest, u =>
    match lastWithUrl rest u with
    | some b => some b
    | none => if a.url = u then some a else none

/-- unique_articles (src/main.py line 190): the values of the dict keyed by
indirection url, one article per distinct url, keys in first-occurrence
order, values last-seen-wins. -/
def unique_articles (l : List ArticleInfo) : List ArticleInfo :=
  (urlKeys l).filterMap (fun u => lastWithUrl l u)

/-- One candidate's attempt (src/main.py lines 195-213): resolve the
indirection URL through the primed context (a failed resolve skips the
candidate), open the resolved URL in a fresh context and take its HTML (any
exception is caught and skips the candidate), extract the main text with
trafilatura and pass it through the Extraction Gate; on acceptance build
the stored article record. -/
def resolveStep (env : NewsEnv) (article_info : ArticleInfo) : Option AcceptedArticle :=
  match env.resolve article_info.url with
  | none => none
  | some final_url =>
    match env.fetchPage final_url with
    | Except.error _ => none
    | Except.ok html =>
      match extraction_gate (env.extractMainText html) with
      | none => none
      | some body => some ⟨article_info.title, article_info.publisherTitle, final_url, body⟩

/-- The candidate loop of fetch_and_scrape_news (src/main.py lines
192-213): before each attempt the loop breaks once max_to_save articles
have been accepted; otherwise the next candidate is attempted, appending
the built record on success and skipping the candidate on any failure. -/
def scrapeLoop (env : NewsEnv) (max_to_save : Nat) : List ArticleInfo → List AcceptedArticle → List AcceptedArticle
  | [], acc => acc
  | article_info :: rest, acc =>
    if max_to_save ≤ acc.length then acc
    else
      match resolveStep env article_info with
      | none => scrapeLoop env max_to_save rest acc
      | some accepted => scrapeLoop env max_to_save rest (acc ++ [accepted])

/-- The default of the max_to_save parameter (src/main.py line 181). -/
def default_max_to_save : Nat := 3

/-- fetch_and_scrape_news (src/main.py lines 181-216): take the results of
the first query tier that returns any, deduplicate them by indirection URL,
and run the candidate loop starting from an empty accepted list. -/
def fetch_and_scrape_news (env : NewsEnv) (search_queries : List String) (max_to_save : Nat) : List AcceptedArticle :=
  scrapeLoop env max_to_save (unique_articles (firstTierResults env search_queries)) []

/-- Python truthiness of the api_key argument (src/main.py line 222):
falsy when the environment variable was absent (None) or empty. -/
def pyFalsy : Option String → Bool
  | none => true
  | some s => s == ""

/-- Python str.strip: remove leading and trailing whitespace. -/
def pyStrip (s : String) : String :=
  String.mk (((s.data.dropWhile Char.isWhitespace).reverse.dropWhile Char.isWhitespace).reverse)

/-- Python raw_text.replace of the two-character literal backslash-n with a
real newline, scanning left to right (src/main.py line 271). -/
def unescapeNewlines : List Char → List Char
  | [] => []
  | '\\' :: 'n' :: rest => '\n' :: unescapeNewlines rest
  | c :: rest => c :: unescapeNewlines rest

/-- The successful-response post-processing of generate_market_summary
(src/main.py lines 268-273): .strip() followed by replacing literal
backslash-n sequences with newlines. -/
def clean_response (raw_text : String) : String :=
  String.mk (unescapeNewlines (pyStrip raw_text).data)

/-- What the remote completion call observed: the message content of a 2xx
response, a requests RequestException, or any other raised error (non-2xx
raise_for_status, malformed response body). -/
inductive RemoteOutcome where
  | ok (content : String)
  | requestError (msg : String)
  | otherError (msg : String)

/-- generate_market_summary (src/main.py lines 218-280).  The remote call's
outcome is the oracle argument, and the second returned component counts
how many remote completion calls were issued.  The checks run in source
order: a falsy API key short-circuits first, then an empty article list;
otherwise exactly one remote call is made, whose successful content is
cleaned and returned and whose failure is converted to an ERROR string
rather than propagating.  The dossier and prompt construction only feed the
remote model and are not modelled. -/
def generate_market_summary (scraped_articles : List AcceptedArticle) (_asset_name : String) (api_key : Option String) (remote : RemoteOutcome) : String × Nat :=
  if pyFalsy api_key then ("**ERROR: API key is missing.**", 0)
  else if scraped_articles.isEmpty then
    ("No relevant news articles were found to generate a summary.", 0)
  else
    match remote with
    | RemoteOutcome.ok content => (clean_response content, 1)
    | RemoteOutcome.requestError e => ("ERROR: Could not connect to the AI service: " ++ e, 1)
    | RemoteOutcome.otherError e => ("ERROR: An unexpected error occurred during AI summary generation: " ++ e, 1)

/-- One tracked asset from config.json. -/
structure AssetSpec where
  name : String
  symbol : String
  search_queries : List String
deriving DecidableEq

/-- One entry of all_snapshots as persisted to the JSON file: the dict keys
of src/main.py lines 161-167 and 177, plus the two keys added on the
success path in lines 338-339 (absent, modelled none, for failed assets). -/
structure Snapshot where
  asset_name : String
  symbol : String
  status : String
  data : Option Ohlc
  error : Option String
  market_summary : Option String
  source_articles : Option (List AcceptedArticle)
deriving DecidableEq

/-- The per-run external world of the main block: each asset's chart
surface, news oracles and remote-call outcome, plus the loaded API key. -/
structure RunEnv where
  chart : AssetSpec → ChartModel
  news : AssetSpec → NewsEnv
  remote : AssetSpec → RemoteOutcome
  api_key : Option String

/-- The per-asset body of the main loop (src/main.py lines 322-341): fetch
the price snapshot; only when its status is Success run the News Pipeline
and the summary and attach both keys; a Failed snapshot is kept as-is.  The
second component counts how many times fetch_and_scrape_news was invoked
while processing this asset. -/
def process_asset (env : RunEnv) (asset : AssetSpec) : Snapshot × Nat :=
  match fetch_tradingview_yesterday_data (env.chart asset) with
  | PriceResult.success d =>
    let related_news := fetch_and_scrape_news (env.news asset) asset.search_queries default_max_to_save
    let market_summary := (generate_market_summary related_news asset.name env.api_key (env.remote asset)).1
    (⟨asset.name, asset.symbol, "Success", some d, none, some market_summary, some related_news⟩, 1)
  | PriceResult.failed e =>
    (⟨asset.name, asset.symbol, "Failed", none, some e, none, none⟩, 0)

/-- all_snapshots as dumped to the JSON file (src/main.py lines 341 and
352): one snapshot per configured asset, in input order, kept regardless of
per-asset failure. -/
def main_loop (env : RunEnv) (assets : List AssetSpec) : List Snapshot :=
  assets.map (fun asset => (process_asset env asset).1)

/-- The snapshots for which generate_markdown_report (src/main.py lines
290-292) emits a section: any snapshot whose status is not Success is
skipped with continue. -/
def markdown_report_sections (all_snapshots : List Snapshot) : List Snapshot :=
  all_snapshots.filter (fun snap => snap.status == "Success")

/-- A chart of three candles whose reads always succeed, with pairwise
distinct values per position. -/
def chartC1 : ChartModel :=
  ⟨3, fun i => some ⟨Int.ofNat i, Int.ofNat i, Int.ofNat i, Int.ofNat i⟩⟩

/-- A chart of three candles where only position 1 is readable. -/
def chartBack : ChartModel :=
  ⟨3, fun i => if i == 1 then some ⟨1, 1, 1, 1⟩ else none⟩

/-- A chart of five candles where every read fails. -/
def chartC2 : ChartModel := ⟨5, fun _ => none⟩

/-- A chart of four candles where every read fails. -/
def chartW2 : ChartModel := ⟨4, fun _ => none⟩

/-- A chart of one candle where every read fails. -/
def chartFail : ChartModel := ⟨1, fun _ => none⟩

/-- A final address off the aggregator's domain that still contains the
string "google.com" in its path. -/
def offDomainUrl : String := "https://example.com/winners-of-google.com-case"

/-- Two search-result candidates with distinct indirection URLs. -/
def a1 : ArticleInfo := ⟨"Gold climbs", "gn-u1", "Pub One"⟩

/-- A second candidate, distinct from a1 in url as well. -/
def a2 : ArticleInfo := ⟨"Gold slips", "gn-u2", "Pub Two"⟩

/-- A news environment whose resolver sends every indirection URL to the
same final address and whose extraction always yields a 300-character body. -/
def env6 : NewsEnv :=
  ⟨fun _ => [a1, a2], fun _ => some "https://pub.example/a",
   fun _ => Except.ok "html", fun _ => some (strOfLen 300)⟩

/-- A news environment whose resolver is the identity (hence injective). -/
def envInj : NewsEnv :=
  ⟨fun _ => [a1, a2], fun u => some u,
   fun _ => Except.ok "html", fun _ => some (strOfLen 300)⟩

/-- One accepted article used as a concrete synthesizer input. -/
def sampleArticle : AcceptedArticle :=
  ⟨"Gold climbs", "Pub One", "https://pub.example/a", "Gold rose on Tuesday."⟩

/-- One concrete tracked asset. -/
def assetW : AssetSpec := ⟨"Gold", "TVC:GOLD", ["gold price"]⟩

/-- A run environment whose price chart always fails to read. -/
def envFail : RunEnv :=
  ⟨fun _ => chartFail, fun _ => env6, fun _ => RemoteOutcome.ok "resp", some "key"⟩

/-- Length of the repeated-character string. -/
theorem strOfLen_length (n : Nat) : (strOfLen n).length = n := by
  show (List.replicate n 'a').length = n
  simp

/-- Length of a Python slice: the minimum of the cut and the full length. -/
theorem pySlice_length (s : String) (n : Nat) : (pySlice s n).length = min n s.length := by
  show (s.data.take n).length = min n s.data.length
  simp

/-- Membership in insertKey: the old keys plus possibly the new one. -/
theorem mem_insertKey (ks : List String) (u v : String) : v ∈ insertKey ks u ↔ v ∈ ks ∨ v = u := by
  by_cases h : u ∈ ks
  · simp only [insertKey, if_pos h]
    constructor
    · exact Or.inl
    · rintro (hv | rfl)
      · exact hv
      · exact h
  · simp [insertKey, if_neg h]

/-- insertKey preserves the absence of duplicate keys. -/
theorem insertKey_nodup (ks : List String) (u : String) (h : ks.Nodup) : (insertKey ks u).Nodup := by
  by_cases hm : u ∈ ks
  · simpa [insertKey, if_pos hm] using h
  · simp only [insertKey, if_neg hm]
    refine List.Nodup.append h (List.nodup_singleton u) ?_
    intro x hx hxu
    rw [List.mem_singleton] at hxu
    exact hm (hxu ▸ hx)

/-- Folding insertKey over the articles preserves the absence of duplicate
keys. -/
theorem foldl_insertKey_nodup (l : List ArticleInfo) : ∀ ks : List String, ks.Nodup → (l.foldl (fun ks a => insertKey ks a.url) ks).Nodup := by
  induction l with
  | nil => intro ks h; simpa using h
  | cons a t ih =>
    intro ks h
    rw [List.foldl_cons]
    exact ih _ (insertKey_nodup ks a.url h)

/-- The dict keys carry no duplicates. -/
theorem urlKeys_nodup (l : List ArticleInfo) : (urlKeys l).Nodup :=
  foldl_insertKey_nodup l [] List.nodup_nil

/-- The dict value stored under a key carries that key as its url. -/
theorem lastWithUrl_url (l : List ArticleInfo) (u : String) : ∀ a, lastWithUrl l u = some a → a.url = u := by
  induction l with
  | nil => intro a h; simp [lastWithUrl] at h
  | cons b t ih =>
    intro a h
    simp only [lastWithUrl] at h
    cases hrec : lastWithUrl t u with
    | some c =>
      rw [hrec] at h
      obtain rfl : c = a := Option.some.inj h
      exact ih _ hrec
    | none =>
      rw [hrec] at h
      by_cases hb : b.url = u
      · rw [if_pos hb] at h
        obtain rfl : b = a := Option.some.inj h
        exact hb
      · rw [if_neg hb] at h
        exact absurd h (by simp)

/-- Mapping url over the dict values is a sublist of the dict keys. -/
theorem map_url_filterMap_sublist (f : String → Option ArticleInfo) (hf : ∀ u a, f u = some a → a.url = u) : ∀ ks : List String, List.Sublist ((ks.filterMap f).map ArticleInfo.url) ks := by
  intro ks
  induction ks with
  | nil => simp
  | cons u t ih =>
    cases hu : f u with
    | none => simpa [List.filterMap_cons, hu] using ih.cons u
    | some a =>
      have ha := hf u a hu
      simp only [List.filterMap_cons, hu, List.map_cons]
      rw [ha]
      exact ih.cons₂ u

/-- Deduplication works: the urls of unique_articles carry no duplicates. -/
theorem unique_articles_urls_nodup (l : List ArticleInfo) : ((unique_articles l).map ArticleInfo.url).Nodup := by
  have hf : ∀ u a, lastWithUrl l u = some a → a.url = u := fun u a h => lastWithUrl_url l u a h
  exact List.Nodup.sublist (map_url_filterMap_sublist (fun u => lastWithUrl l u) hf (urlKeys l)) (urlKeys_nodup l)

/-- A successful candidate attempt stores exactly the resolved URL. -/
theorem resolveStep_url (env : NewsEnv) (c : ArticleInfo) (x : AcceptedArticle) (h : resolveStep env c = some x) : env.resolve c.url = some x.url := by
  cases hr : env.resolve c.url with
  | none => simp [resolveStep, hr] at h
  | some final_url =>
    cases hp : env.fetchPage final_url with
    | error e => simp [resolveStep, hr, hp] at h
    | ok html =>
      cases hg : extraction_gate (env.extractMainText html) with
      | none => simp [resolveStep, hr, hp, hg] at h
      | some body =>
        simp only [resolveStep, hr, hp, hg] at h
        obtain rfl : (⟨c.title, c.publisherTitle, final_url, body⟩ : AcceptedArticle) = x := Option.some.inj h
        rfl

/-- Once the target count is reached the candidate loop returns at once,
whatever candidates remain. -/
theorem scrapeLoop_break (env : NewsEnv) (m : Nat) : ∀ (cs : List ArticleInfo) (acc : List AcceptedArticle), m ≤ acc.length → scrapeLoop env m cs acc = acc := by
  intro cs
  cases cs with
  | nil => intro acc _; rfl
  | cons c rest =>
    intro acc h
    simp only [scrapeLoop]
    rw [if_pos h]

/-- The candidate loop never grows the accepted list beyond the target. -/
theorem scrapeLoop_length_le (env : NewsEnv) (m : Nat) : ∀ (cs : List ArticleInfo) (acc : List AcceptedArticle), acc.length ≤ m → (scrapeLoop env m cs acc).length ≤ m := by
  intro cs
  induction cs with
  | nil => intro acc h; exact h
  | cons c rest ih =>
    intro acc h
    by_cases hb : m ≤ acc.length
    · rw [scrapeLoop_break env m (c :: rest) acc hb]; exact h
    · simp only [scrapeLoop]
      rw [if_neg hb]
      cases hs : resolveStep env c with
      | none => exact ih acc h
      | some accepted =>
        refine ih (acc ++ [accepted]) ?_
        have hlt : acc.length < m := Nat.lt_of_not_le hb
        simp only [List.length_append, List.length_singleton]
        omega

/-- A candidate whose attempt fails is skipped without aborting the loop. -/
theorem scrapeLoop_skip (env : NewsEnv) (m : Nat) (c : ArticleInfo) (rest : List ArticleInfo) (acc : List AcceptedArticle) (hb : ¬ m ≤ acc.length) (hs : resolveStep env c = none) : scrapeLoop env m (c :: rest) acc = scrapeLoop env m rest acc := by
  simp only [scrapeLoop]
  rw [if_neg hb, hs]

/-- Invariant of the candidate loop: when the remaining candidates carry
pairwise-distinct indirection urls, the accepted urls so far carry no
duplicates, no remaining candidate resolves onto an already-accepted url,
and resolution is injective, then the final accepted urls carry no
duplicates. -/
theorem scrapeLoop_nodup (env : NewsEnv) (m : Nat) (hinj : ∀ u1 u2 r, env.resolve u1 = some r → env.resolve u2 = some r → u1 = u2) : ∀ (cs : List ArticleInfo) (acc : List AcceptedArticle), (cs.map ArticleInfo.url).Nodup → (acc.map AcceptedArticle.url).Nodup → (∀ c, c ∈ cs → ∀ ac, ac ∈ acc → ∀ r, env.resolve c.url = some r → ac.url ≠ r) → ((scrapeLoop env m cs acc).map AcceptedArticle.url).Nodup := by
  intro cs
  induction cs with
  | nil => intro acc _ hacc _; exact hacc
  | cons c rest ih =>
    intro acc hcs hacc hsep
    rw [List.map_cons] at hcs
    obtain ⟨hcnotin, hcs'⟩ := List.nodup_cons.mp hcs
    by_cases hb : m ≤ acc.length
    · rw [scrapeLoop_break env m (c :: rest) acc hb]; exact hacc
    · simp only [scrapeLoop]
      rw [if_neg hb]
      cases hs : resolveStep env c with
      | none =>
        exact ih acc hcs' hacc (fun c' hc' ac hac r hr => hsep c' (List.mem_cons_of_mem c hc') ac hac r hr)
      | some accepted =>
        have hurl : env.resolve c.url = some accepted.url := resolveStep_url env c accepted hs
        refine ih (acc ++ [accepted]) hcs' ?_ ?_
        · rw [List.map_append]
          refine List.Nodup.append hacc (by simp) ?_
          intro x hx hxu
          simp only [List.map_cons, List.map_nil, List.mem_singleton] at hxu
          subst hxu
          rcases List.mem_map.mp hx with ⟨ac, hac, hacurl⟩
          exact hsep c (List.mem_cons_self c rest) ac hac accepted.url hurl hacurl
        · intro c' hc' ac hac r hr
          rcases List.mem_append.mp hac with hac1 | hac2
          · exact hsep c' (List.mem_cons_of_mem c hc') ac hac1 r hr
          · have hax : ac = accepted := by simpa using hac2
            subst hax
            intro hcontra
            have h2 : env.resolve c.url = some r := by rw [hurl, hcontra]
            have hcc : c'.url = c.url := hinj c'.url c.url r hr h2
            exact hcnotin (hcc ▸ List.mem_map_of_mem ArticleInfo.url hc')

/-- Claim C1 counterexample: on a chart of three candles whose reads all
succeed, the locator returns the right-edge candle's values (position 2),
not those of the candle immediately preceding it (position 1), refuting the
claimed unconditional one-step back-off. -/
theorem c1_counterexample :
    fetch_tradingview_yesterday_data chartC1 = PriceResult.success ⟨2, 2, 2, 2⟩
    ∧ chartC1.read_ohlc (chartC1.numCandles - 2) = some ⟨1, 1, 1, 1⟩
    ∧ PriceResult.success (⟨2, 2, 2, 2⟩ : Ohlc) ≠ PriceResult.success ⟨1, 1, 1, 1⟩ := by
  refine ⟨?_, ?_, ?_⟩ <;> decide

/-- Claim C1 as amended: after jumping to the chart's right edge (Home,
then End twice) the locator reads the right-edge candle itself and returns
its values whenever that read succeeds; only when the first read fails does
it back off one step (ArrowLeft) and return the preceding candle's values. -/
theorem c1_amended : ∀ chart : ChartModel,
    (∀ o : Ohlc, chart.read_ohlc (chart.numCandles - 1) = some o →
      fetch_tradingview_yesterday_data chart = PriceResult.success o)
    ∧ (∀ o : Ohlc, chart.read_ohlc (chart.numCandles - 1) = none →
      chart.read_ohlc (chart.numCandles - 2) = some o →
      fetch_tradingview_yesterday_data chart = PriceResult.success o) := by
  intro chart
  have e : chart.numCandles - 1 - 1 = chart.numCandles - 2 := by omega
  constructor
  · intro o h
    simp [fetch_tradingview_yesterday_data, pressHome, pressEnd, pressArrowLeft, h]
  · intro o h1 h2
    simp [fetch_tradingview_yesterday_data, pressHome, pressEnd, pressArrowLeft, h1, e, h2]

/-- Claim C1 witness: the amended theorem evaluated on a chart whose first
read succeeds and on a chart where only the backed-off read succeeds. -/
theorem c1_amended_witness :
    fetch_tradingview_yesterday_data chartC1 = PriceResult.success ⟨2, 2, 2, 2⟩
    ∧ fetch_tradingview_yesterday_data chartBack = PriceResult.success ⟨1, 1, 1, 1⟩ :=
  ⟨(c1_amended chartC1).1 ⟨2, 2, 2, 2⟩ (by decide),
   (c1_amended chartBack).2 ⟨1, 1, 1, 1⟩ (by decide) (by decide)⟩

/-- Claim C2 counterexample: on a chart where every read fails (hence with
no two consecutive equal close reads), the locator does return a Failed
result without crashing, but its error detail is the navigation-read
message, not the claimed string could not find end of chart. -/
theorem c2_counterexample :
    fetch_tradingview_yesterday_data chartC2 = PriceResult.failed "Failed to retrieve final OHLC values after navigation."
    ∧ PriceResult.failed "Failed to retrieve final OHLC values after navigation." ≠ PriceResult.failed "could not find end of chart" := by
  refine ⟨?_, ?_⟩ <;> decide

/-- Claim C2 as amended: the locator has no bounded hunt loop and never
produces the error could not find end of chart on any chart; when the OHLC
read fails both at the right edge and after the single one-step back-off,
it returns a Failed result with the navigation-read error message instead
of crashing. -/
theorem c2_amended : ∀ chart : ChartModel,
    fetch_tradingview_yesterday_data chart ≠ PriceResult.failed "could not find end of chart"
    ∧ (chart.read_ohlc (chart.numCandles - 1) = none →
      chart.read_ohlc (chart.numCandles - 2) = none →
      fetch_tradingview_yesterday_data chart = PriceResult.failed "Failed to retrieve final OHLC values after navigation.") := by
  intro chart
  have e : chart.numCandles - 1 - 1 = chart.numCandles - 2 := by omega
  constructor
  · cases h1 : chart.read_ohlc (chart.numCandles - 1) with
    | some o => simp [fetch_tradingview_yesterday_data, pressHome, pressEnd, pressArrowLeft, h1]
    | none =>
      cases h2 : chart.read_ohlc (chart.numCandles - 1 - 1) with
      | some o => simp [fetch_tradingview_yesterday_data, pressHome, pressEnd, pressArrowLeft, h1, h2]
      | none => simp [fetch_tradingview_yesterday_data, pressHome, pressEnd, pressArrowLeft, h1, h2]
  · intro h1 h2
    simp [fetch_tradingview_yesterday_data, pressHome, pressEnd, pressArrowLeft, h1, e, h2]

/-- Claim C2 witness: the amended theorem evaluated on a concrete chart
where every read fails. -/
theorem c2_amended_witness :
    fetch_tradingview_yesterday_data chartW2 ≠ PriceResult.failed "could not find end of chart"
    ∧ fetch_tradingview_yesterday_data chartW2 = PriceResult.failed "Failed to retrieve final OHLC values after navigation." :=
  ⟨(c2_amended chartW2).1, (c2_amended chartW2).2 rfl rfl⟩

/-- Claim C3 counterexample: a final address whose host is example.com, far
off the aggregator's domain, still contains the string google.com in its
path, so the resolver reports failure (None) even though the claimed
domain-based exclusion would accept it. -/
theorem c3_counterexample :
    resolve_google_redirect (NavOutcome.landed offDomainUrl) = none
    ∧ onAggregatorDomain offDomainUrl = false := by
  refine ⟨?_, ?_⟩ <;> decide

/-- Claim C3 as amended: the resolver succeeds exactly when navigation
landed and the string google.com does not occur anywhere in the final URL,
a substring test over the whole URL rather than a domain-based exclusion; a
landing on news.google.com is reported as failure and a navigation
exception is caught and reported as failure rather than escaping. -/
theorem c3_amended : ∀ u msg : String,
    resolve_google_redirect (NavOutcome.landed u) = (if py_in "google.com" u then none else some u)
    ∧ resolve_google_redirect (NavOutcome.navError msg) = none
    ∧ resolve_google_redirect (NavOutcome.landed "https://news.google.com/articles/abc") = none := by
  intro u msg
  exact ⟨rfl, rfl, by decide⟩

/-- Claim C4: the Extraction Gate accepts a body exactly when it is at
least 250 characters long (a 200-character body is rejected, a
300-character body accepted), truncates accepted text to at most 4000
characters (a 5000-character body becomes exactly 4000), and rejection is
a typed skip (a none result, which the candidate loop passes over) rather
than an exception. -/
theorem c4_confirmed :
    (∀ t : String, (extraction_gate (some t)).isSome = true ↔ 250 ≤ t.length)
    ∧ (∀ t b : String, extraction_gate (some t) = some b → b.length ≤ 4000)
    ∧ extraction_gate (some (strOfLen 200)) = none
    ∧ (extraction_gate (some (strOfLen 300))).isSome = true
    ∧ extraction_gate (some (strOfLen 5000)) = some (pySlice (strOfLen 5000) 4000)
    ∧ (pySlice (strOfLen 5000) 4000).length = 4000
    ∧ extraction_gate none = none
    ∧ (∀ (env : NewsEnv) (m : Nat) (c : ArticleInfo) (rest : List ArticleInfo) (acc : List AcceptedArticle),
      ¬ m ≤ acc.length → resolveStep env c = none →
      scrapeLoop env m (c :: rest) acc = scrapeLoop env m rest acc) := by
  refine ⟨?_, ?_, ?_, ?_, ?_, ?_, rfl, scrapeLoop_skip⟩
  · intro t
    by_cases h : t.length < 250
    · simp [extraction_gate, h]
    · simp [extraction_gate, h]
      omega
  · intro t b h
    simp only [extraction_gate] at h
    by_cases hl : t.length < 250
    · rw [if_pos hl] at h
      exact absurd h (by simp)
    · rw [if_neg hl] at h
      obtain rfl : pySlice t 4000 = b := Option.some.inj h
      rw [pySlice_length]
      exact Nat.min_le_left 4000 t.length
  · simp [extraction_gate, strOfLen_length]
  · simp [extraction_gate, strOfLen_length]
  · simp [extraction_gate, strOfLen_length]
  · rw [pySlice_length, strOfLen_length]
    omega

/-- Claim C4 witness: the gate theorem evaluated at a 300-character body. -/
theorem c4_confirmed_witness :
    250 ≤ (strOfLen 300).length ∧ (pySlice (strOfLen 300) 4000).length ≤ 4000 :=
  ⟨(c4_confirmed.1 (strOfLen 300)).mp (by simp [extraction_gate, strOfLen_length]),
   c4_confirmed.2.1 (strOfLen 300) (pySlice (strOfLen 300) 4000) (by simp [extraction_gate, strOfLen_length])⟩

/-- Claim C5: the News Pipeline takes its candidates only from the first
query tier that returns any results, falling back tier by tier and never
merging later tiers in; the candidate loop refuses any further extraction
attempt once the target count is reached even when candidates remain, so
the accepted list never exceeds the target; an empty query list yields the
empty accepted list as a valid outcome, and the source default of the
target count is 3. -/
theorem c5_confirmed :
    (∀ (env : NewsEnv) (q : String) (rest : List String) (m : Nat), env.get_news q ≠ [] →
      fetch_and_scrape_news env (q :: rest) m = fetch_and_scrape_news env [q] m)
    ∧ (∀ (env : NewsEnv) (q : String) (rest : List String) (m : Nat), env.get_news q = [] →
      fetch_and_scrape_news env (q :: rest) m = fetch_and_scrape_news env rest m)
    ∧ (∀ (env : NewsEnv) (qs : List String) (m : Nat), (fetch_and_scrape_news env qs m).length ≤ m)
    ∧ (∀ (env : NewsEnv) (m : Nat) (cs : List ArticleInfo) (acc : List AcceptedArticle),
      m ≤ acc.length → scrapeLoop env m cs acc = acc)
    ∧ (∀ (env : NewsEnv) (m : Nat), fetch_and_scrape_news env [] m = [])
    ∧ default_max_to_save = 3 := by
  refine ⟨?_, ?_, ?_, scrapeLoop_break, ?_, rfl⟩
  · intro env q rest m h
    have h1 : firstTierResults env (q :: rest) = env.get_news q := by
      cases hg : env.get_news q with
      | nil => exact absurd hg h
      | cons x xs => simp [firstTierResults, hg]
    have h2 : firstTierResults env [q] = env.get_news q := by
      cases hg : env.get_news q with
      | nil => exact absurd hg h
      | cons x xs => simp [firstTierResults, hg]
    simp [fetch_and_scrape_news, h1, h2]
  · intro env q rest m h
    have h1 : firstTierResults env (q :: rest) = firstTierResults env rest := by
      simp [firstTierResults, h]
    simp [fetch_and_scrape_news, h1]
  · intro env qs m
    exact scrapeLoop_length_le env m _ [] (Nat.zero_le m)
  · intro env m
    rfl

/-- Claim C5 witness: the tier rule and the break rule evaluated on a
concrete environment. -/
theorem c5_confirmed_witness :
    fetch_and_scrape_news env6 ["gold price", "gold"] 3 = fetch_and_scrape_news env6 ["gold price"] 3
    ∧ scrapeLoop env6 0 [a1] [] = [] :=
  ⟨c5_confirmed.1 env6 "gold price" ["gold"] 3 (by decide),
   c5_confirmed.2.2.2.1 env6 0 [a1] [] (Nat.le_refl 0)⟩

set_option maxRecDepth 100000 in
/-- Claim C6 counterexample: two candidates with distinct indirection URLs
both resolve to the same final address and both pass the gate, so the
returned accepted articles share one resolved URL — uniqueness by
resolvedUrl fails, because the deduplication of source line 190 keys on the
indirection URL before resolution. -/
theorem c6_counterexample :
    ¬ (((fetch_and_scrape_news env6 ["gold price"] 3).map AcceptedArticle.url).Nodup) := by
  have h : (fetch_and_scrape_news env6 ["gold price"] 3).map AcceptedArticle.url
      = ["https://pub.example/a", "https://pub.example/a"] := by rfl
  rw [h]
  decide

/-- Claim C6 as amended: candidates are deduplicated by their indirection
(pre-resolution) URL, so the dict values carry pairwise-distinct
indirection urls; the accepted articles' resolved URLs are pairwise
distinct whenever redirect resolution is injective on indirection URLs, but
not in general. -/
theorem c6_amended :
    (∀ raw : List ArticleInfo, ((unique_articles raw).map ArticleInfo.url).Nodup)
    ∧ (∀ (env : NewsEnv) (qs : List String) (m : Nat),
      (∀ u1 u2 r, env.resolve u1 = some r → env.resolve u2 = some r → u1 = u2) →
      ((fetch_and_scrape_news env qs m).map AcceptedArticle.url).Nodup) := by
  constructor
  · exact unique_articles_urls_nodup
  · intro env qs m hinj
    exact scrapeLoop_nodup env m hinj (unique_articles (firstTierResults env qs)) []
      (unique_articles_urls_nodup _) List.nodup_nil
      (fun c _ ac hac r _ => absurd hac (List.not_mem_nil ac))

/-- Claim C6 witness: the amended theorem evaluated on an environment whose
resolver is the identity, hence injective. -/
theorem c6_amended_witness :
    ((fetch_and_scrape_news envInj ["gold price"] 3).map AcceptedArticle.url).Nodup :=
  c6_amended.2 envInj ["gold price"] 3 (fun u1 u2 r h1 h2 => by
    have e1 : u1 = r := Option.some.inj h1
    have e2 : u2 = r := Option.some.inj h2
    rw [e1, e2])

/-- Claim C7 counterexample: a labelled response body is returned whole by
generate_market_summary, with no summary section or sentiment extracted
from it, refuting the claimed label-based parsing. -/
theorem c7_counterexample :
    (generate_market_summary [sampleArticle] "Gold" (some "test-key") (RemoteOutcome.ok "SUMMARY: X\nSENTIMENT: Positive")).1
      = "SUMMARY: X\nSENTIMENT: Positive"
    ∧ ("SUMMARY: X\nSENTIMENT: Positive" : String) ≠ "X" := by
  refine ⟨?_, ?_⟩ <;> decide

/-- Claim C7 as amended: the synthesizer performs no label-based parsing at
all; with articles present and an API key present, every successful
response body is returned whole after stripping surrounding whitespace and
replacing literal backslash-n sequences with newlines, whether or not the
expected labels occur, and without any structured or not-structured
marking. -/
theorem c7_amended : ∀ (scraped_articles : List AcceptedArticle) (asset_name : String) (api_key : Option String) (raw : String),
    scraped_articles ≠ [] → pyFalsy api_key = false →
    generate_market_summary scraped_articles asset_name api_key (RemoteOutcome.ok raw) = (clean_response raw, 1) := by
  intro arts name key raw h1 h2
  have he : arts.isEmpty = false := by
    cases arts with
    | nil => exact absurd rfl h1
    | cons a t => rfl
  simp [generate_market_summary, h2, he]

/-- Claim C7 witness: the amended theorem evaluated on one article, a
present key and a concrete raw response. -/
theorem c7_amended_witness :
    generate_market_summary [sampleArticle] "Gold" (some "test-key") (RemoteOutcome.ok "  Markets rallied.  ")
      = (clean_response "  Markets rallied.  ", 1) :=
  c7_amended [sampleArticle] "Gold" (some "test-key") "  Markets rallied.  " (by decide) (by decide)

/-- Claim C8 counterexample: with zero accepted articles but a missing API
key, the synthesizer returns the API-key error string, not the claimed
no-articles sentinel (still without any network call). -/
theorem c8_counterexample :
    (generate_market_summary [] "Gold" none (RemoteOutcome.ok "resp")).1 = "**ERROR: API key is missing.**"
    ∧ ("**ERROR: API key is missing.**" : String) ≠ "No relevant news articles were found to generate a summary." := by
  refine ⟨?_, ?_⟩ <;> decide

/-- Claim C8 as amended: for every call with zero accepted articles and a
present (non-falsy) API key, the synthesizer returns the no-articles
sentinel and issues zero remote calls. -/
theorem c8_amended : ∀ (asset_name : String) (api_key : Option String) (remote : RemoteOutcome),
    pyFalsy api_key = false →
    generate_market_summary [] asset_name api_key remote = ("No relevant news articles were found to generate a summary.", 0) := by
  intro name key remote h
  simp [generate_market_summary, h]

/-- Claim C8 witness: the amended theorem evaluated with a present key. -/
theorem c8_amended_witness :
    generate_market_summary [] "Gold" (some "test-key") (RemoteOutcome.ok "resp") = ("No relevant news articles were found to generate a summary.", 0) :=
  c8_amended "Gold" (some "test-key") (RemoteOutcome.ok "resp") (by decide)

/-- Claim C10: the missing-credential check precedes the empty-articles
check: whenever the API key is falsy the synthesizer returns the API-key
error string with zero remote calls, for any article list including the
empty one, and the no-articles sentinel is only ever returned when the API
key is present. -/
theorem c10_confirmed :
    (∀ (scraped_articles : List AcceptedArticle) (asset_name : String) (api_key : Option String) (remote : RemoteOutcome),
      pyFalsy api_key = true →
      generate_market_summary scraped_articles asset_name api_key remote = ("**ERROR: API key is missing.**", 0))
    ∧ (∀ (asset_name : String) (api_key : Option String) (remote : RemoteOutcome),
      (generate_market_summary [] asset_name api_key remote).1 = "No relevant news articles were found to generate a summary." →
      pyFalsy api_key = false) := by
  constructor
  · intro arts name key remote h
    simp [generate_market_summary, h]
  · intro name key remote h
    by_cases hk : pyFalsy key = true
    · rw [show generate_market_summary [] name key remote = ("**ERROR: API key is missing.**", 0) from by simp [generate_market_summary, hk]] at h
      exact absurd h (by decide)
    · simpa using hk

/-- Claim C10 witness: the precedence theorem evaluated with the key
missing and the article list empty. -/
theorem c10_confirmed_witness :
    generate_market_summary [] "Gold" none (RemoteOutcome.ok "resp") = ("**ERROR: API key is missing.**", 0) :=
  c10_confirmed.1 [] "Gold" none (RemoteOutcome.ok "resp") rfl

/-- Claim C9: when an asset's price lookup fails, its report has no
narrative, the News Pipeline is never invoked for it, the snapshot still
enters the persisted list with status Failed and the error string, the
Markdown report skips it, and every other configured asset is still
processed (one snapshot per asset, in order). -/
theorem c9_confirmed : ∀ (env : RunEnv) (asset : AssetSpec) (e : String),
    fetch_tradingview_yesterday_data (env.chart asset) = PriceResult.failed e →
    ((process_asset env asset).1.market_summary = none
     ∧ (process_asset env asset).2 = 0
     ∧ (process_asset env asset).1.status = "Failed"
     ∧ (process_asset env asset).1.error = some e
     ∧ (∀ assets : List AssetSpec, asset ∈ assets → (process_asset env asset).1 ∈ main_loop env assets)
     ∧ (∀ snaps : List Snapshot, (process_asset env asset).1 ∉ markdown_report_sections snaps)
     ∧ (∀ assets : List AssetSpec, (main_loop env assets).length = assets.length)) := by
  intro env asset e h
  have hp : process_asset env asset = (⟨asset.name, asset.symbol, "Failed", none, some e, none, none⟩, 0) := by
    simp [process_asset, h]
  refine ⟨by rw [hp], by rw [hp], by rw [hp], by rw [hp], ?_, ?_, ?_⟩
  · intro assets ha
    exact List.mem_map_of_mem (fun a => (process_asset env a).1) ha
  · intro snaps hmem
    have hstat := (List.mem_filter.mp hmem).2
    rw [hp] at hstat
    have hfs : (("Failed" : String) == "Success") = true := hstat
    exact absurd hfs (by decide)
  · intro assets
    simp [main_loop]

/-- Claim C9 witness: the theorem evaluated on a run environment whose
chart reads always fail. -/
theorem c9_confirmed_witness :
    (process_asset envFail assetW).1.market_summary = none
    ∧ (process_asset envFail assetW).2 = 0
    ∧ (process_asset envFail assetW).1 ∈ main_loop envFail [assetW] := by
  have h := c9_confirmed envFail assetW "Failed to retrieve final OHLC values after navigation." (by decide)
  exact ⟨h.1, h.2.1, h.2.2.2.2.1 [assetW] (by simp)⟩
